import Mathlib

set_option maxHeartbeats 1000000

namespace AmazonBot

/-! String primitives shared by the embeddings: JS `substring(0, n)` / Python
slicing, substring containment, and Python's whitespace `split()`. -/

/-- JS `s.substring(0, n)`, Python `s[:n]`: the first `n` codepoints. -/
def jsSubstr (s : String) (n : Nat) : String :=
  String.mk (s.toList.take n)

/-- Does `needle` start `hay`? -/
def startsWithL (needle hay : List Char) : Bool :=
  match needle, hay with
  | [], _ => true
  | _ :: _, [] => false
  | a :: as, b :: bs => a = b && startsWithL as bs

/-- Does `hay` contain `needle` as a contiguous run? -/
def containsL (hay needle : List Char) : Bool :=
  match hay with
  | [] => needle.isEmpty
  | _ :: rest => startsWithL needle hay || containsL rest needle

/-- Python `needle in hay`, JS `hay.includes(needle)`. -/
def strContainsSub (hay needle : String) : Bool :=
  containsL hay.toList needle.toList

/-- Python `s.lower()`, JS `s.toLowerCase()` (ASCII letters). -/
def strLower (s : String) : String :=
  String.mk (s.toList.map Char.toLower)

/-- Drop whitespace from both ends. -/
def trimL (l : List Char) : List Char :=
  ((l.dropWhile Char.isWhitespace).reverse.dropWhile Char.isWhitespace).reverse

/-- Python `s.strip()`, JS `s.trim()`. -/
def strTrim (s : String) : String :=
  String.mk (trimL s.toList)

/-- Split at every character satisfying `p`, keeping empty pieces. -/
def splitOnPredAux (p : Char → Bool) : List Char → List Char → List (List Char)
  | [], acc => [acc.reverse]
  | x :: xs, acc =>
    if p x then acc.reverse :: splitOnPredAux p xs []
    else splitOnPredAux p xs (x :: acc)

/-- Split at every occurrence of the character `c` (JS `s.split(c)`). -/
def splitOnChar (c : Char) (l : List Char) : List (List Char) :=
  splitOnPredAux (fun x => x = c) l []

/-- Python `s.split()`: split on whitespace, dropping empty pieces. -/
def pySplitWs (s : String) : List String :=
  ((splitOnPredAux Char.isWhitespace s.toList []).map String.mk).filter
    (fun w => w != "")

instance exceptDecEq {ε α : Type} [DecidableEq ε] [DecidableEq α] :
    DecidableEq (Except ε α)
  | .ok a, .ok b => decidable_of_iff (a = b) ⟨congrArg _, Except.ok.inj⟩
  | .error a, .error b => decidable_of_iff (a = b) ⟨congrArg _, Except.error.inj⟩
  | .ok _, .error _ => isFalse (fun hc => Except.noConfusion hc)
  | .error _, .ok _ => isFalse (fun hc => Except.noConfusion hc)

/-! Embedding of `AmazonSearchScraper.scrape_search` (src/scraper/search_scraper.py).
A candidate item container exposes one `data-asin` attribute lookup (which can
raise) and three field locators; a field locator either matches nothing
(`count() == 0`), yields text, or raises during `inner_text`. -/

/-- Result of evaluating one field locator on an item container. -/
inductive FieldRes
  | absent
  | text (s : String)
  | raises
deriving DecidableEq

/-- One candidate item container on the search page. -/
structure SearchItem where
  asin : Except Unit (Option String)
  titleF : FieldRes
  priceF : FieldRes
  ratingF : FieldRes
deriving DecidableEq

/-- A record appended to `products` by the extraction loop. -/
structure Product where
  asin : String
  title : String
  price : String
  rating : String
deriving DecidableEq

/-- `await locator.inner_text(...) if await locator.count() > 0 else default`. -/
def fieldValue (f : FieldRes) (dflt : String) : Except Unit String :=
  match f with
  | .absent => .ok dflt
  | .text s => .ok s
  | .raises => .error ()

/-- `title[:60] + "..." if len(title) > 60 else title`. -/
def truncTitle (t : String) : String :=
  if t.length > 60 then jsSubstr t 60 ++ "..." else t

/-- Python `s.split()[0]`; raises `IndexError` when no token exists. -/
def firstToken (s : String) : Except Unit String :=
  match pySplitWs s with
  | [] => .error ()
  | w :: _ => .ok w

/-- `rating.split()[0] if rating != "No rating" else rating`. -/
def normRating (rating0 : String) : Except Unit String :=
  if rating0 ≠ "No rating" then firstToken rating0 else .ok rating0

/-- Body of the per-item `try:` block: evaluate ASIN, title, price and rating
in source order, propagating the first exception; return `some` record when
`if asin:` holds and `none` when the ASIN guard drops the item. -/
def extractItem (it : SearchItem) : Except Unit (Option Product) :=
  match it.asin with
  | .error e => .error e
  | .ok asin =>
    match fieldValue it.titleF "N/A" with
    | .error e => .error e
    | .ok title0 =>
      let title := truncTitle title0
      match fieldValue it.priceF "N/A" with
      | .error e => .error e
      | .ok price =>
        match fieldValue it.ratingF "No rating" with
        | .error e => .error e
        | .ok rating0 =>
          match normRating rating0 with
          | .error e => .error e
          | .ok rating =>
            match asin with
            | some a =>
              if a ≠ "" then .ok (some ⟨a, title, price, rating⟩) else .ok none
            | none => .ok none

/-- The extraction loop: `try` each item, `except: continue` on failure,
append the record when the ASIN guard passes. -/
def extractBatch (items : List SearchItem) : List Product :=
  items.filterMap (fun it =>
    match extractItem it with
    | .ok p => p
    | .error _ => none)

/-- The ordered container-selector ladder of `scrape_search`. -/
def amazonSelectors : List String :=
  ["[data-component-type=\"s-search-result\"]", ".s-card-container",
   "[data-cy=\"title-recipe-title\"]", ".s-result-item"]

/-- The loaded page as the scraper observes it: a title and, per selector,
either the element list `locator(sel).all()` returns or `none` when that call
raises. -/
structure SearchPage where
  title : String
  query : String → Option (List SearchItem)

/-- The selector loop: try each selector in order; on an exception continue;
accept the first selector whose element list is non-empty
(`if elements and len(elements) > 0`). -/
def selectContainers (page : SearchPage) : List String → List SearchItem
  | [] => []
  | s :: rest =>
    match page.query s with
    | none => selectContainers page rest
    | some els => if els.length > 0 then els else selectContainers page rest

/-- Messaging side effects observable from `scrape_search`. -/
inductive Event
  | sendMessage (text : String)
  | editMessage (text : String)
  | sendPhoto (caption : String)
deriving DecidableEq

/-- `"captcha" in page_title.lower() or "robot" in page_title.lower()`. -/
def blockedCheck (t : String) : Bool :=
  strContainsSub (strLower t) "captcha" || strContainsSub (strLower t) "robot"

/-- The control flow of `scrape_search` after navigation, as a function from
the observed page to the emitted message trace and the extraction outcome
(`none` when the `for` loop over items never ran). -/
def scrape_search (page : SearchPage) : List Event × Option (List Product) :=
  let t0 := [Event.sendMessage "⏳ **Initializing search...**",
             Event.editMessage "⏳ **Loading Amazon search page...** [1/4]",
             Event.editMessage "⏳ **Checking for CAPTCHA...** [2/4]"]
  if blockedCheck page.title then
    (t0 ++ [Event.editMessage "❌ Amazon detected bot and showing CAPTCHA. Try again later or use a proxy service."], none)
  else
    let t1 := t0 ++ [Event.editMessage "⏳ **Scrolling to load products...** [3/4]",
                     Event.editMessage "⏳ **Searching for products...** [4/4]"]
    let elements := selectContainers page amazonSelectors
    if elements.isEmpty then
      (t1 ++ [Event.editMessage "❌ No products found. Sending debug screenshot...",
              Event.sendPhoto "❌ Debug Info",
              Event.editMessage "❌ Amazon may be blocking requests. Try again later."], none)
    else
      let products := extractBatch (elements.take 5)
      if products.isEmpty then
        (t1 ++ [Event.editMessage "❌ No valid products found after extraction."], some products)
      else
        (t1 ++ [Event.sendPhoto "📸 Search results",
                Event.editMessage "🔍 **Search Results**"], some products)

/-- Number of photos sent in a trace. -/
def photoCount (tr : List Event) : Nat :=
  (tr.filter (fun e => match e with | .sendPhoto _ => true | _ => false)).length

/-! The three `edit_message` helpers. Each is modelled as a function from
"did `bot.edit_message_text` raise" to the list of observable actions. -/

/-- Observable actions of an `edit_message` call. -/
inductive MsgAct
  | editOk
  | logFail
  | sendNewMsg
deriving DecidableEq

/-- `AmazonSearchScraper.edit_message` (both variants): on failure, print and
return — no new message. -/
def amazonSearch_edit_message (editFails : Bool) : List MsgAct :=
  if editFails then [.logFail] else [.editOk]

/-- `AmazonProductScraper.edit_message` (src/scrape/product_scraper.py): on
failure, print and then `send_message` a fresh message. -/
def amazonProduct_edit_message (editFails : Bool) : List MsgAct :=
  if editFails then [.logFail, .sendNewMsg] else [.editOk]

/-- `EbayProductScraper.edit_message` (src/scraper/product_scraper.py): on
failure, print and then `send_message` a fresh message. -/
def ebayProduct_edit_message (editFails : Bool) : List MsgAct :=
  if editFails then [.logFail, .sendNewMsg] else [.editOk]

/-! `EbayProductScraper._esc`: double every backslash, then walk the fixed
punctuation string and put a backslash before each of its characters. -/

/-- Replace every occurrence of the character `c` by the string `rep`
(Python `text.replace(c, rep)` for a one-character pattern). -/
def replaceChar (c : Char) (rep : List Char) : List Char → List Char
  | [] => []
  | x :: xs => (if x = c then rep else [x]) ++ replaceChar c rep xs

/-- The punctuation set `r"_[]()*~`>#+=|{}.!-"` walked by `_esc`. -/
def escPunct : List Char := "_[]()*~`>#+=|\x7b\x7d.!-".toList

/-- `EbayProductScraper._esc`. -/
def _esc (s : String) : String :=
  let cs := replaceChar '\\' ['\\', '\\'] s.toList
  String.mk (escPunct.foldl (fun t c => replaceChar c ['\\', c] t) cs)

/-! Embedding of the in-page JS extraction of `EbayProductScraper.scrape_product`
(src/scraper/product_scraper.py lines 96-152). A matched anchor carries its
`href`, its own text, and the query results on its closest root. -/

/-- A DOM element as the JS reads it: `innerText` and `textContent`. -/
structure JsEl where
  innerText : String
  textContent : String
deriving DecidableEq

/-- JS `el.innerText || el.textContent || ''`. -/
def elText (e : JsEl) : String :=
  if e.innerText ≠ "" then e.innerText
  else if e.textContent ≠ "" then e.textContent
  else ""

/-- The `root` container of an anchor: the `querySelector` results used for
title, price and shipping (in source order; `none` = no match). -/
structure Root where
  h3 : Option JsEl
  classTitle : Option JsEl
  spanHeading : Option JsEl
  priceClass : Option JsEl
  boldSpan : Option JsEl
  listingPrice : Option JsEl
  shippingEl : Option JsEl
deriving DecidableEq

/-- One anchor matched by `a[href*="/itm/"]`: its `href`, its own element
(the last title candidate) and its closest root (`none` = every `closest`
returned null). -/
structure Anchor where
  href : String
  self : JsEl
  root : Option Root
deriving DecidableEq

/-- `href.split('/').pop().split('?')[0]`. -/
def hrefId (href : String) : String :=
  String.mk ((splitOnChar '?' ((splitOnChar '/' href.toList).getLastD [])).headD [])

/-- First non-empty `elText` among the present candidates, else `''`
(the `if (!title && el) title = ...` fold). -/
def firstText (cands : List (Option JsEl)) : String :=
  match cands with
  | [] => ""
  | none :: rest => firstText rest
  | some e :: rest => if elText e ≠ "" then elText e else firstText rest

/-- The four title candidates: `h3`, `[class*="title"]`,
`span[role="heading"]`, the anchor itself. -/
def pickTitle (r : Root) (a : Anchor) : String :=
  firstText [r.h3, r.classTitle, r.spanHeading, some a.self]

/-- The three price candidates. -/
def pickPrice (r : Root) : String :=
  firstText [r.priceClass, r.boldSpan, r.listingPrice]

/-- A record pushed onto `items` by the JS extraction. -/
structure EbayItem where
  id : String
  title : String
  price : String
  ship : String
deriving DecidableEq

/-- The per-anchor gates after the `seen` check: root present, trimmed title
non-empty, not "shop on ebay", length ≥ 3, trimmed price non-empty; on success
the pushed record. -/
def ebayFields (id : String) (a : Anchor) : Option EbayItem :=
  match a.root with
  | none => none
  | some r =>
    let title := strTrim (pickTitle r a)
    if title = "" ∨ strContainsSub (strLower title) "shop on ebay" ∨ title.length < 3 then
      none
    else
      let price := strTrim (pickPrice r)
      if price = "" then none
      else
        let ship := match r.shippingEl with
          | some e => elText e
          | none => ""
        some ⟨id, jsSubstr title 100, jsSubstr price 50, jsSubstr (strTrim ship) 50⟩

/-- The `forEach` over matched anchors with the `seen` set threaded through:
`if (!id || seen.has(id)) return;` then the field gates, then push + add. -/
def ebayGo (seen : List String) : List Anchor → List EbayItem
  | [] => []
  | a :: rest =>
    let id := hrefId a.href
    if id = "" ∨ id ∈ seen then ebayGo seen rest
    else
      match ebayFields id a with
      | none => ebayGo seen rest
      | some item => item :: ebayGo (id :: seen) rest

/-- The JS extraction over the full matched-anchor list. -/
def ebayExtract (anchors : List Anchor) : List EbayItem :=
  ebayGo [] anchors

/-! Embedding of the item-collection expression of the src/scrape variant
(src/scrape/search_scraper.py line 78):
`items = await page.locator(sel).all()[:5]`. `await` binds looser than
subscription, so the slice is applied to the un-awaited coroutine object
returned by `.all()`. -/

/-- The Python runtime errors this expression can produce. -/
inductive PyErr
  | typeError
deriving DecidableEq

/-- A Python value at this point of the program: a list of elements, or the
un-awaited coroutine object returned by an async call (carrying the list it
would yield when awaited). -/
inductive PyVal (α : Type)
  | list (xs : List α)
  | coroutine (xs : List α)

/-- Python slicing `v[:n]`: defined on lists; a coroutine object is not
subscriptable, so slicing it raises `TypeError`. -/
def pySliceTo (n : Nat) : PyVal α → Except PyErr (PyVal α)
  | .list xs => .ok (.list (xs.take n))
  | .coroutine _ => .error .typeError

/-- `await v`: resumes a coroutine to its value. -/
def pyAwait : PyVal α → Except PyErr (PyVal α)
  | .coroutine xs => .ok (.list xs)
  | .list _ => .error .typeError

/-- `await page.locator(sel).all()[:5]`, given the element list the locator
would report: slice the coroutine object first, then await the result. -/
def scrape_collectItems (elems : List α) : Except PyErr (List α) := do
  let allResult : PyVal α := PyVal.coroutine elems
  let sliced ← pySliceTo 5 allResult
  match ← pyAwait sliced with
  | .list xs => pure xs
  | .coroutine _ => .error .typeError

/-- A record appended by the src/scrape variant loop (no ASIN guard, so the
ASIN stays optional). -/
structure ScrapeProduct where
  asin : Option String
  title : String
  price : String
  rating : String
deriving DecidableEq

/-- Per-item body of the src/scrape variant loop (identical field evaluation,
but the record is appended unconditionally, with no ASIN guard). -/
def scrapeVariant_extractItem (it : SearchItem) : Except Unit ScrapeProduct :=
  match it.asin with
  | .error e => .error e
  | .ok asin =>
    match fieldValue it.titleF "N/A" with
    | .error e => .error e
    | .ok title0 =>
      match fieldValue it.priceF "N/A" with
      | .error e => .error e
      | .ok price =>
        match fieldValue it.ratingF "No rating" with
        | .error e => .error e
        | .ok rating0 =>
          match normRating rating0 with
          | .error e => .error e
          | .ok rating => .ok ⟨asin, truncTitle title0, price, rating⟩

/-- The src/scrape variant extraction phase: collect items (line 78), then run
the loop over them. -/
def scrape_extractPhase (elems : List SearchItem) : Except PyErr (List ScrapeProduct) := do
  let items ← scrape_collectItems elems
  pure (items.filterMap (fun it => (scrapeVariant_extractItem it).toOption))

/-! `EbayProductScraper.scrape_product` messaging: how the
`edit_message_id` argument selects between editing and sending. -/

/-- Python truthiness of the optional string argument. -/
def pyTruthyStr : Option String → Bool
  | none => false
  | some s => s != ""

/-- `if edit_message_id and edit_message_id != "undefined":`. -/
def useEditPath (emid : Option String) : Bool :=
  pyTruthyStr emid && emid != some "undefined"

/-- What the opening of `scrape_product` does with the status message. -/
inductive InitialAct
  | editExisting
  | sendFresh
deriving DecidableEq

/-- What the closing of `scrape_product` does with the final report. -/
inductive FinalAct
  | editExisting
  | editFreshMsg
  | sendNew
deriving DecidableEq

/-- Lines 41-52: edit the supplied message, or send a fresh status message
and remember it in `msg`. -/
def scrape_product_initial (emid : Option String) : InitialAct :=
  if useEditPath emid then .editExisting else .sendFresh

/-- Lines 199-210: `if edit_message_id and != "undefined"` edit it;
`elif msg` edit the fresh message; else send new. `msg` is set exactly when
the opening sent a fresh message. -/
def scrape_product_final (emid : Option String) : FinalAct :=
  if useEditPath emid then .editExisting
  else if scrape_product_initial emid = .sendFresh then .editFreshMsg
  else .sendNew

/-! Concrete page states and batches used to instantiate the claims. -/

/-- A well-formed item container with the given ASIN. -/
def mkItem (a : String) : SearchItem :=
  ⟨.ok (some a), .text ("T" ++ a), .text "$1", .absent⟩

/-- A page whose first ladder selector yields exactly 2 containers and whose
second yields 5. -/
def twoThenFivePage : SearchPage :=
  ⟨"Amazon.com : wireless mouse",
   fun s =>
     if s = "[data-component-type=\"s-search-result\"]" then
       some [mkItem "A1", mkItem "A2"]
     else if s = ".s-card-container" then
       some [mkItem "B1", mkItem "B2", mkItem "B3", mkItem "B4", mkItem "B5"]
     else some []⟩

/-- A candidate item with the given ASIN, optionally missing its title. -/
def c2Item (a : String) (hasTitle : Bool) : SearchItem :=
  ⟨.ok (some a),
   if hasTitle then FieldRes.text ("Item " ++ a) else .absent,
   .text "$9.99", .absent⟩

/-- Five candidate items of which items 2 and 4 are missing the title. -/
def c2Batch : List SearchItem :=
  [c2Item "B01" true, c2Item "B02" false, c2Item "B03" true,
   c2Item "B04" false, c2Item "B05" true]

/-- An item whose title locator raises during `inner_text`. -/
def c3Bad : SearchItem := ⟨.ok (some "BAD"), .raises, .text "$2", .absent⟩

/-- Healthy neighbours of `c3Bad`. -/
def c3Good1 : SearchItem := ⟨.ok (some "G1"), .text "Good One", .text "$3", .absent⟩

def c3Good2 : SearchItem := ⟨.ok (some "G2"), .text "Good Two", .text "$4", .absent⟩

/-- A loaded page whose title announces a CAPTCHA. -/
def captchaPage : SearchPage := ⟨"Amazon CAPTCHA", fun _ => some []⟩

/-- Scans a character list and checks that every occurrence of a target
character is preceded by exactly one backslash (the previous character is a
backslash and the one before it is not). -/
def escChk (targets : List Char) : Option Char → Option Char → List Char → Bool
  | _, _, [] => true
  | p2, p1, c :: rest =>
    (if targets.contains c then
       decide (p1 = some '\\') && decide (p2 ≠ some '\\')
     else true)
      && escChk targets p1 (some c) rest

/-- Every target character in `s` is preceded by exactly one backslash. -/
def precededByExactlyOne (targets : List Char) (s : String) : Bool :=
  escChk targets none none s.toList

/-- An eBay root with one title candidate and one price candidate. -/
def mkRoot (t p : String) : Root :=
  ⟨some ⟨t, ""⟩, none, none, some ⟨p, ""⟩, none, none, none⟩

/-- Two anchors whose hrefs resolve to the same listing id `111`. -/
def anchDup1 : Anchor :=
  ⟨"https://www.ebay.com/itm/111", ⟨"link text", ""⟩,
   some (mkRoot "First Title" "$10.00")⟩

def anchDup2 : Anchor :=
  ⟨"https://www.ebay.com/itm/111?hash=abc", ⟨"link text", ""⟩,
   some (mkRoot "Second Title" "$20.00")⟩

/-- An anchor with a valid id and title but no price candidate at all. -/
def noPriceAnchor : Anchor :=
  ⟨"https://www.ebay.com/itm/222", ⟨"Good Gadget", ""⟩,
   some ⟨some ⟨"Good Gadget", ""⟩, none, none, none, none, none, none⟩⟩

/-- An anchor with a valid id, title and price, used as a healthy witness. -/
def priceAnchor : Anchor :=
  ⟨"https://www.ebay.com/itm/333", ⟨"link", ""⟩,
   some (mkRoot "Wireless Mouse" "$15.49")⟩

/-- Two Amazon candidate items that share the ASIN `DUP`. -/
def amazonDupBatch : List SearchItem :=
  [⟨.ok (some "DUP"), .text "First Copy", .text "$5", .absent⟩,
   ⟨.ok (some "DUP"), .text "Second Copy", .text "$6", .absent⟩]

/-- C6: `_esc` doubles backslashes first (the doubled backslash is not in the
punctuation set, so it stays exactly doubled) and then prefixes each
punctuation character with a single backslash; on `"A_B*C"` every `_` and `*`
ends up preceded by exactly one backslash. -/
theorem c6_escape_order :
    _esc "A_B*C" = "A\\_B\\*C"
    ∧ precededByExactlyOne ['_', '*'] (_esc "A_B*C") = true
    ∧ _esc "\\" = "\\\\" := by
  refine ⟨by decide, by decide, by decide⟩

/-- C8: in the src/scrape variant, the item-collection expression slices the
un-awaited coroutine returned by `.all()`, so it raises `TypeError` for every
element list the locator would report, and the extraction phase can never
produce a product list. -/
theorem c8_coroutine_slice_type_error :
    (∀ (α : Type) (elems : List α), scrape_collectItems elems = .error .typeError)
    ∧ (∀ elems : List SearchItem, scrape_extractPhase elems = .error .typeError) :=
  ⟨fun _ _ => rfl, fun _ => rfl⟩

/-- C10: an `edit_message_id` equal to the literal string `"undefined"` takes
the same messaging path as an absent one — the opening sends a fresh status
message rather than editing, and the closing edits that fresh message. -/
theorem c10_undefined_id :
    useEditPath (some "undefined") = false
    ∧ scrape_product_initial (some "undefined") = .sendFresh
    ∧ scrape_product_initial none = .sendFresh
    ∧ scrape_product_initial (some "undefined") = scrape_product_initial none
    ∧ scrape_product_final (some "undefined") = scrape_product_final none
    ∧ scrape_product_final (some "undefined") = .editFreshMsg := by
  refine ⟨rfl, rfl, rfl, rfl, rfl, rfl⟩

/-- C4 counterexample: in both product scrapers, a failed edit is followed by
sending a brand-new message — the claimed "never sends a new message as a
fallback" is false for these reporters. -/
theorem c4_edit_fallback_counterexample :
    (ebayProduct_edit_message true).contains MsgAct.sendNewMsg = true
    ∧ (amazonProduct_edit_message true).contains MsgAct.sendNewMsg = true := by
  refine ⟨rfl, rfl⟩

/-- C4 amended: only `AmazonSearchScraper.edit_message` logs a failed edit and
continues without sending a new message; both product scrapers' `edit_message`
log the failure and then send a fresh message as a fallback. -/
theorem c4_edit_fallback_amended :
    (∀ b, (amazonSearch_edit_message b).contains MsgAct.sendNewMsg = false)
    ∧ amazonSearch_edit_message true = [MsgAct.logFail]
    ∧ amazonProduct_edit_message true = [MsgAct.logFail, MsgAct.sendNewMsg]
    ∧ ebayProduct_edit_message true = [MsgAct.logFail, MsgAct.sendNewMsg] := by
  refine ⟨fun b => ?_, rfl, rfl, rfl⟩
  cases b <;> rfl

/-! General lemmas about the embedded operations. -/

/-- `jsSubstr` of a non-empty string with a positive bound is non-empty. -/
theorem jsSubstr_ne_empty (s : String) (n : Nat) (hs : s ≠ "") (hn : 0 < n) :
    jsSubstr s n ≠ "" := by
  cases s with
  | mk data =>
    cases data with
    | nil => exact absurd rfl hs
    | cons c cs =>
      cases n with
      | zero => omega
      | succ m =>
        show String.mk ((c :: cs).take (m + 1)) ≠ ""
        intro hc
        have hdata := congrArg String.data hc
        simp [List.take] at hdata

/-- A record built by `ebayFields` carries exactly the id it was given. -/
theorem ebayFields_id (id : String) (a : Anchor) (item : EbayItem)
    (h : ebayFields id a = some item) : item.id = id := by
  unfold ebayFields at h
  cases hr : a.root with
  | none => rw [hr] at h; exact Option.noConfusion h
  | some r =>
    rw [hr] at h
    simp only at h
    split at h
    · exact Option.noConfusion h
    · split at h
      · exact Option.noConfusion h
      · cases h; rfl

/-- A record built by `ebayFields` has a non-empty price: the price gate
rejects an empty trimmed price, and truncation keeps the first characters. -/
theorem ebayFields_price (id : String) (a : Anchor) (item : EbayItem)
    (h : ebayFields id a = some item) : item.price ≠ "" := by
  unfold ebayFields at h
  cases hr : a.root with
  | none => rw [hr] at h; exact Option.noConfusion h
  | some r =>
    rw [hr] at h
    simp only at h
    split at h
    · exact Option.noConfusion h
    · rename_i hne
      split at h
      · exact Option.noConfusion h
      · rename_i hpr
        cases h
        exact jsSubstr_ne_empty _ _ hpr (by omega)

/-- Every record emitted by the eBay extraction comes from `ebayFields` on
some anchor of the batch. -/
theorem ebayGo_mem (as : List Anchor) : ∀ (seen : List String) (i : EbayItem),
    i ∈ ebayGo seen as → ∃ a, a ∈ as ∧ ebayFields (hrefId a.href) a = some i := by
  induction as with
  | nil => intro seen i h; simp [ebayGo] at h
  | cons a rest ih =>
    intro seen i h
    simp only [ebayGo] at h
    split at h
    · obtain ⟨b, hb, hf⟩ := ih _ _ h
      exact ⟨b, List.mem_cons_of_mem _ hb, hf⟩
    · cases hf : ebayFields (hrefId a.href) a with
      | none =>
        rw [hf] at h
        obtain ⟨b, hb, hfb⟩ := ih _ _ h
        exact ⟨b, List.mem_cons_of_mem _ hb, hfb⟩
      | some item =>
        rw [hf] at h
        rcases List.mem_cons.mp h with h1 | h2
        · subst h1; exact ⟨a, List.mem_cons_self _ _, hf⟩
        · obtain ⟨b, hb, hfb⟩ := ih _ _ h2
          exact ⟨b, List.mem_cons_of_mem _ hb, hfb⟩

/-- No record emitted by `ebayGo` carries an id already in `seen`. -/
theorem ebayGo_id_notin (as : List Anchor) : ∀ (seen : List String) (i : EbayItem),
    i ∈ ebayGo seen as → i.id ∉ seen := by
  induction as with
  | nil => intro seen i h; simp [ebayGo] at h
  | cons a rest ih =>
    intro seen i h
    simp only [ebayGo] at h
    split at h
    · exact ih _ _ h
    · rename_i hcond
      cases hf : ebayFields (hrefId a.href) a with
      | none => rw [hf] at h; exact ih _ _ h
      | some item =>
        rw [hf] at h
        rcases List.mem_cons.mp h with h1 | h2
        · subst h1
          rw [ebayFields_id _ _ _ hf]
          intro hmem
          exact hcond (Or.inr hmem)
        · intro hmem
          exact ih _ _ h2 (List.mem_cons_of_mem _ hmem)

/-- The ids of the records emitted by `ebayGo` are pairwise distinct. -/
theorem ebayGo_nodup (as : List Anchor) : ∀ (seen : List String),
    ((ebayGo seen as).map EbayItem.id).Nodup := by
  induction as with
  | nil => intro seen; simp [ebayGo]
  | cons a rest ih =>
    intro seen
    simp only [ebayGo]
    split
    · exact ih seen
    · cases hf : ebayFields (hrefId a.href) a with
      | none => exact ih seen
      | some item =>
        simp only [List.map_cons, List.nodup_cons]
        refine ⟨?_, ih _⟩
        intro hmem
        rcases List.mem_map.mp hmem with ⟨j, hj, hid⟩
        have hnot := ebayGo_id_notin rest _ j hj
        apply hnot
        rw [hid, ebayFields_id _ _ _ hf]
        exact List.mem_cons_self _ _

/-- A record emitted by `extractItem` carries exactly the item's non-empty
`data-asin` attribute: the `if asin:` guard is the only mandatory-field gate. -/
theorem extractItem_asin_spec (it : SearchItem) (p : Product)
    (h : extractItem it = .ok (some p)) :
    it.asin = .ok (some p.asin) ∧ p.asin ≠ "" := by
  unfold extractItem at h
  cases ha : it.asin with
  | error e => rw [ha] at h; exact Except.noConfusion h
  | ok oasin =>
    rw [ha] at h; dsimp only at h
    cases h1 : fieldValue it.titleF "N/A" with
    | error e => rw [h1] at h; exact Except.noConfusion h
    | ok t0 =>
      rw [h1] at h; dsimp only at h
      cases h2 : fieldValue it.priceF "N/A" with
      | error e => rw [h2] at h; exact Except.noConfusion h
      | ok pr =>
        rw [h2] at h; dsimp only at h
        cases h3 : fieldValue it.ratingF "No rating" with
        | error e => rw [h3] at h; exact Except.noConfusion h
        | ok r0 =>
          rw [h3] at h; dsimp only at h
          cases h4 : normRating r0 with
          | error e => rw [h4] at h; exact Except.noConfusion h
          | ok r =>
            rw [h4] at h; dsimp only at h
            cases oasin with
            | none => simp at h
            | some a =>
              by_cases hne : a = ""
              · simp [hne] at h
              · simp [hne] at h
                obtain rfl := h
                exact ⟨rfl, hne⟩

/-- `scrape_search` on a page whose lowered title contains "captcha" stops at
the CAPTCHA check: the trace ends with the blocked edit, and the extraction
loop never runs. -/
theorem scrape_search_blocked (page : SearchPage)
    (h : strContainsSub (strLower page.title) "captcha" = true) :
    scrape_search page =
      ([Event.sendMessage "⏳ **Initializing search...**",
        Event.editMessage "⏳ **Loading Amazon search page...** [1/4]",
        Event.editMessage "⏳ **Checking for CAPTCHA...** [2/4]",
        Event.editMessage "❌ Amazon detected bot and showing CAPTCHA. Try again later or use a proxy service."],
       none) := by
  have hb : blockedCheck page.title = true := by
    unfold blockedCheck
    rw [h, Bool.true_or]
  unfold scrape_search
  rw [hb]
  rfl

/-! Claim theorems. -/

/-- C1 counterexample: on a page where the first ladder selector yields
exactly 2 elements and the second yields 5, the engine keeps the first
selector's 2 elements — it does not require strictly more than 2 and does not
move on to the second selector. -/
theorem c1_ladder_counterexample :
    (selectContainers twoThenFivePage amazonSelectors).length = 2
    ∧ twoThenFivePage.query ".s-card-container" =
        some [mkItem "B1", mkItem "B2", mkItem "B3", mkItem "B4", mkItem "B5"]
    ∧ selectContainers twoThenFivePage amazonSelectors ≠
        [mkItem "B1", mkItem "B2", mkItem "B3", mkItem "B4", mkItem "B5"] := by
  refine ⟨by decide, by decide, by decide⟩

/-- C1 (amended): the extraction engine accepts a selector as soon as it
yields at least one element (selectors that raise or yield nothing are
skipped); in particular, when the first selector yields a non-empty list, its
elements are selected and later selectors are never consulted. -/
theorem c1_ladder_amended :
    (∀ (page : SearchPage) (s : String) (rest : List String),
        page.query s = none ∨ page.query s = some [] →
        selectContainers page (s :: rest) = selectContainers page rest)
    ∧ (∀ (page : SearchPage) (els : List SearchItem),
        page.query "[data-component-type=\"s-search-result\"]" = some els →
        0 < els.length →
        selectContainers page amazonSelectors = els) := by
  constructor
  · intro page s rest h
    rcases h with h | h <;> simp [selectContainers, h]
  · intro page els h hlen
    unfold amazonSelectors selectContainers
    rw [h]
    simp [hlen]

/-- C1 witness: both parts of the amended ladder behaviour instantiated on
the concrete two-then-five page. -/
theorem c1_ladder_witness :
    (twoThenFivePage.query ".s-result-item" = some []
      ∧ selectContainers twoThenFivePage [".s-result-item"] =
          selectContainers twoThenFivePage [])
    ∧ (twoThenFivePage.query "[data-component-type=\"s-search-result\"]" =
          some [mkItem "A1", mkItem "A2"]
      ∧ 0 < ([mkItem "A1", mkItem "A2"] : List SearchItem).length
      ∧ selectContainers twoThenFivePage amazonSelectors = [mkItem "A1", mkItem "A2"]) :=
  ⟨⟨by decide,
    c1_ladder_amended.1 twoThenFivePage ".s-result-item" [] (Or.inr (by decide))⟩,
   ⟨by decide, by decide,
    c1_ladder_amended.2 twoThenFivePage [mkItem "A1", mkItem "A2"] (by decide) (by decide)⟩⟩

/-- C2 counterexample: the batch of 5 candidates with items 2 and 4 missing
the title yields 5 records, not 3 — missing titles do not discard items. -/
theorem c2_title_counterexample :
    (extractBatch c2Batch).length = 5
    ∧ (extractBatch c2Batch).length ≠ 3
    ∧ (extractBatch c2Batch).map Product.asin = ["B01", "B02", "B03", "B04", "B05"] := by
  refine ⟨by decide, by decide, by decide⟩

/-- C2 (amended): only the identifier is mandatory — every emitted record
carries the item's non-empty `data-asin` — while a missing title is replaced
by the placeholder "N/A"; the 5-item batch with items 2 and 4 missing the
title therefore yields 5 records, in original order, with all 5 identifiers. -/
theorem c2_mandatory_asin_amended :
    (∀ (it : SearchItem) (p : Product), extractItem it = .ok (some p) →
        it.asin = .ok (some p.asin) ∧ p.asin ≠ "")
    ∧ extractBatch c2Batch =
        [⟨"B01", "Item B01", "$9.99", "No rating"⟩,
         ⟨"B02", "N/A", "$9.99", "No rating"⟩,
         ⟨"B03", "Item B03", "$9.99", "No rating"⟩,
         ⟨"B04", "N/A", "$9.99", "No rating"⟩,
         ⟨"B05", "Item B05", "$9.99", "No rating"⟩] :=
  ⟨extractItem_asin_spec, by decide⟩

/-- C2 witness: the identifier property instantiated on the first concrete
batch item. -/
theorem c2_mandatory_asin_witness :
    extractItem (c2Item "B01" true) =
      .ok (some ⟨"B01", "Item B01", "$9.99", "No rating"⟩)
    ∧ ((c2Item "B01" true).asin =
        .ok (some (Product.asin ⟨"B01", "Item B01", "$9.99", "No rating"⟩))
      ∧ Product.asin ⟨"B01", "Item B01", "$9.99", "No rating"⟩ ≠ "") :=
  ⟨by decide,
   c2_mandatory_asin_amended.1 (c2Item "B01" true)
     ⟨"B01", "Item B01", "$9.99", "No rating"⟩ (by decide)⟩

/-- C3: an exception while evaluating one item's fields removes exactly that
item — the batch result is the concatenation of the results on the items
before and after it, so the batch is never aborted. -/
theorem c3_item_isolation (xs ys : List SearchItem) (bad : SearchItem)
    (h : extractItem bad = .error ()) :
    extractBatch (xs ++ bad :: ys) = extractBatch xs ++ extractBatch ys := by
  unfold extractBatch
  rw [List.filterMap_append, List.filterMap_cons]
  simp [h]

/-- C3 witness: a raising item between two healthy ones is dropped while both
neighbours survive. -/
theorem c3_item_isolation_witness :
    extractItem c3Bad = .error ()
    ∧ extractBatch [c3Good1, c3Bad, c3Good2] =
        extractBatch [c3Good1] ++ extractBatch [c3Good2] :=
  ⟨by decide, c3_item_isolation [c3Good1] [c3Good2] c3Bad (by decide)⟩

/-- C5 counterexample: on the concrete CAPTCHA page the pipeline sends zero
screenshots, not the claimed exactly one, and runs no extraction. -/
theorem c5_blocked_counterexample :
    photoCount (scrape_search captchaPage).1 = 0
    ∧ photoCount (scrape_search captchaPage).1 ≠ 1
    ∧ (scrape_search captchaPage).2 = none := by
  refine ⟨by decide, by decide, by decide⟩

/-- C5 (amended): when the lowered page title contains "captcha", the run
terminates right after the CAPTCHA check with the blocked edit as its final
message, no extraction is attempted, and no diagnostic screenshot is sent
(the debug screenshot belongs to the empty-result path only). -/
theorem c5_blocked_amended (page : SearchPage)
    (h : strContainsSub (strLower page.title) "captcha" = true) :
    scrape_search page =
      ([Event.sendMessage "⏳ **Initializing search...**",
        Event.editMessage "⏳ **Loading Amazon search page...** [1/4]",
        Event.editMessage "⏳ **Checking for CAPTCHA...** [2/4]",
        Event.editMessage "❌ Amazon detected bot and showing CAPTCHA. Try again later or use a proxy service."],
       none)
    ∧ (scrape_search page).2 = none
    ∧ photoCount (scrape_search page).1 = 0 := by
  have htr := scrape_search_blocked page h
  exact ⟨htr, by rw [htr], by rw [htr]; rfl⟩

/-- C5 witness: the amended blocked behaviour on the concrete CAPTCHA page. -/
theorem c5_blocked_witness :
    strContainsSub (strLower captchaPage.title) "captcha" = true
    ∧ ((scrape_search captchaPage).2 = none
      ∧ photoCount (scrape_search captchaPage).1 = 0) :=
  ⟨by decide, (c5_blocked_amended captchaPage (by decide)).2⟩

/-- C7 counterexample: the Amazon search extraction performs no
deduplication — two candidate items sharing the ASIN "DUP" both appear in the
result. -/
theorem c7_dedup_counterexample :
    (extractBatch amazonDupBatch).map Product.asin = ["DUP", "DUP"]
    ∧ ¬ ((extractBatch amazonDupBatch).map Product.asin).Nodup := by
  refine ⟨by decide, by decide⟩

/-- C7 (amended): the eBay extraction deduplicates by identifier — the result
ids are pairwise distinct for every batch, and of two anchors sharing an id
only the first (with its own fields, unmerged) is emitted — while the Amazon
search extraction keeps later duplicates. -/
theorem c7_dedup_amended :
    (∀ anchors : List Anchor, ((ebayExtract anchors).map EbayItem.id).Nodup)
    ∧ ebayExtract [anchDup1, anchDup2] = [⟨"111", "First Title", "$10.00", ""⟩] :=
  ⟨fun anchors => ebayGo_nodup anchors [], by decide⟩

/-- C9: every record emitted by the eBay extraction has a non-empty price,
and a candidate with a valid identifier and title but no price text is
discarded entirely. -/
theorem c9_price_mandatory :
    (∀ (anchors : List Anchor) (i : EbayItem),
        i ∈ ebayExtract anchors → i.price ≠ "")
    ∧ ebayExtract [noPriceAnchor] = [] :=
  ⟨fun anchors i h => by
      obtain ⟨a, _, hf⟩ := ebayGo_mem anchors [] i h
      exact ebayFields_price _ _ _ hf,
   by decide⟩

/-- C9 witness: the non-empty-price property instantiated on a concrete
emitted record. -/
theorem c9_price_mandatory_witness :
    ((⟨"333", "Wireless Mouse", "$15.49", ""⟩ : EbayItem) ∈ ebayExtract [priceAnchor])
    ∧ (⟨"333", "Wireless Mouse", "$15.49", ""⟩ : EbayItem).price ≠ "" :=
  ⟨by decide,
   c9_price_mandatory.1 [priceAnchor] ⟨"333", "Wireless Mouse", "$15.49", ""⟩ (by decide)⟩

end AmazonBot
